import Mathlib

/-
Verification of the quantitative factor engine of the xunxing-intelligence
repository against its natural-language specification.

Shallow embedding conventions:
* Python floats are modelled as rationals (ℚ); decimal literals in the source
  are taken at their decimal value.  All claims settled below compare values
  against thresholds with comfortable margins, so the float/rational gap does
  not affect any verdict.
* `round(x, d)` (Python round-half-to-even on the scaled value) is modelled by
  `pyRound` below.
* pandas DataFrames holding one instrument's bars are modelled as Lean lists of
  bar structures, chronologically ascending (the source sorts by trade_date and
  resets the index before any computation, so positional indexing agrees).
* A Python dict of factors is modelled as a structure with one `Option ℚ` field
  per key the two factor calculators can produce; `none` means the key is
  absent from the dict.
-/

namespace Xunxing

/-- Round half to even on ℚ, the rounding Python's `round` applies to exact
decimal halves. -/
def roundHalfEven (q : ℚ) : ℤ :=
  let f := ⌊q⌋
  let r := q - (f : ℚ)
  if r < 1/2 then f
  else if 1/2 < r then f + 1
  else if f % 2 = 0 then f else f + 1

/-- Model of Python `round(q, d)`. -/
def pyRound (q : ℚ) (d : ℕ) : ℚ := (roundHalfEven (q * 10 ^ d) : ℚ) / 10 ^ d

/-- Arithmetic mean of a list of rationals (np.mean); on the empty list the
rational convention `x / 0 = 0` applies, but every use below is guarded by a
length gate exactly as in the source. -/
def mean (xs : List ℚ) : ℚ := xs.sum / xs.length

/-- Python negative indexing `xs[-k]` for `1 ≤ k ≤ len xs`. -/
def back (xs : List ℚ) (k : ℕ) : ℚ := xs.getD (xs.length - k) 0

/-- Python slice `xs[-k:]`; for `k ≥ len xs` this is the whole list, as in
Python. -/
def lastN (xs : List ℚ) (k : ℕ) : List ℚ := xs.drop (xs.length - k)

/-- Maximum of a list (np.max); used only on non-empty lists. -/
def maxList (xs : List ℚ) : ℚ := xs.foldr max (xs.headD 0)

/-- Minimum of a list (np.min); used only on non-empty lists. -/
def minList (xs : List ℚ) : ℚ := xs.foldr min (xs.headD 0)

/-- Index of the first occurrence of the maximum (pandas `Series.idxmax` after
`reset_index`): scanning left to right, a later element replaces the current
best only when strictly greater. -/
def idxmaxAux (best : ℚ) (bestIdx i : ℕ) : List ℚ → ℕ
  | [] => bestIdx
  | x :: xs => if best < x then idxmaxAux x i (i + 1) xs else idxmaxAux best bestIdx (i + 1) xs

/-- First index attaining the maximum of the list (0 on the empty list, which
never occurs in guarded uses). -/
def idxmax : List ℚ → ℕ
  | [] => 0
  | x :: xs => idxmaxAux x 0 1 xs

/-- Index of the first occurrence of the minimum (pandas `Series.idxmin`). -/
def idxminAux (best : ℚ) (bestIdx i : ℕ) : List ℚ → ℕ
  | [] => bestIdx
  | x :: xs => if x < best then idxminAux x i (i + 1) xs else idxminAux best bestIdx (i + 1) xs

/-- First index attaining the minimum of the list. -/
def idxmin : List ℚ → ℕ
  | [] => 0
  | x :: xs => idxminAux x 0 1 xs

/-- Tail of the recursive exponential moving average of `_ema`:
`result[i] = alpha*data[i] + (1-alpha)*result[i-1]`. -/
def emaGo (alpha prev : ℚ) : List ℚ → List ℚ
  | [] => []
  | x :: xs =>
      let v := alpha * x + (1 - alpha) * prev
      v :: emaGo alpha v xs

/-- Model of `_ema(data, period)` from src/utils/data_fetcher.py: if the data is shorter
than the period the data itself is returned; otherwise exponential smoothing
with `alpha = 2/(period+1)` seeded with the first value. -/
def ema (data : List ℚ) (period : ℕ) : List ℚ :=
  if data.length < period then data
  else
    match data with
    | [] => []
    | x :: xs => x :: emaGo (2 / (period + 1)) x xs

/-- One daily bar of a PriceSeries (columns of the per-symbol DataFrame read by
`calc_technical_factors`: close/high/low/vol/pct_chg; open and amount are never
read by the factor code and are omitted). -/
structure PBar where
  close : ℚ
  high : ℚ
  low : ℚ
  vol : ℚ
  pct_chg : ℚ
  deriving Repr, DecidableEq

/-- FactorSet produced by `calc_technical_factors`.  Field names transliterate
the source's dict keys: momentum_5d = 动量_5日, ma5 = MA5, price_ma5 = 价格/MA5,
ma_bullish = 均线多头, macd_bar = MACD柱, macd_cross = MACD金叉, rsi_14 = RSI_14,
atr_price_pct = ATR/价格%, vol_ratio_5_20 = 量比_5/20, vol_ratio_today = 今日量比,
vol_mean_5d = 5日均量, new_high_20 = 20日新高, new_low_20 = 20日新低,
consec_up_days = 连涨天数.  `none` means the key is absent from the dict.
The three Bollinger entries (布林上轨/布林下轨/布林位置) carry an irrational
square root of a rational variance; their values are not representable in ℚ, so
only their key-presence is tracked (boll_upper_present, boll_lower_present,
boll_pos_present); no claim below reads a Bollinger value and the default
weight map does not name them. -/
structure TechFactors where
  momentum_5d : Option ℚ := none
  momentum_10d : Option ℚ := none
  momentum_20d : Option ℚ := none
  momentum_60d : Option ℚ := none
  ma5 : Option ℚ := none
  price_ma5 : Option ℚ := none
  ma10 : Option ℚ := none
  ma20 : Option ℚ := none
  price_ma20 : Option ℚ := none
  ma60 : Option ℚ := none
  price_ma60 : Option ℚ := none
  ma_bullish : Option ℚ := none
  macd_dif : Option ℚ := none
  macd_dea : Option ℚ := none
  macd_bar : Option ℚ := none
  macd_cross : Option ℚ := none
  rsi_14 : Option ℚ := none
  boll_upper_present : Bool := false
  boll_lower_present : Bool := false
  boll_pos_present : Bool := false
  atr_14 : Option ℚ := none
  atr_price_pct : Option ℚ := none
  vol_ratio_5_20 : Option ℚ := none
  vol_ratio_today : Option ℚ := none
  vol_mean_5d : Option ℚ := none
  new_high_20 : Option ℚ := none
  new_high_60 : Option ℚ := none
  new_low_20 : Option ℚ := none
  consec_up_days : Option ℚ := none
  deriving Repr, DecidableEq

/-- The empty FactorSet (`{}` in the source). -/
def emptyTechFactors : TechFactors := {}

/-- Trailing count of strictly positive entries scanning backward from the end
(the `for i in range(len-1, -1, -1)` loop of 连涨天数 and the moneyflow
consecutive-inflow loop). -/
def consecPos (xs : List ℚ) : ℕ := (xs.reverse.takeWhile (fun x => decide (0 < x))).length

/-- The close column `df["close"].values`. -/
def closes (df : List PBar) : List ℚ := df.map (·.close)

/-- The high column. -/
def highsOf (df : List PBar) : List ℚ := df.map (·.high)

/-- The low column. -/
def lowsOf (df : List PBar) : List ℚ := df.map (·.low)

/-- The vol column. -/
def volsOf (df : List PBar) : List ℚ := df.map (·.vol)

/-- The pct_chg column.  The source substitutes a zero array of equal length
when the column is missing; this model always carries the column, and every
gate in the factor code only tests its length, which is the same either way. -/
def pctsOf (df : List PBar) : List ℚ := df.map (·.pct_chg)

/-- Value `round((close[-1] / close[-k] - 1) * 100, 2)`, the k-day momentum value. -/
def momentumVal (df : List PBar) (k : ℕ) : ℚ :=
  pyRound ((back (closes df) 1 / back (closes df) k - 1) * 100) 2

/-- Value `np.mean(close[-k:])`, the raw k-day moving average before rounding. -/
def maMean (df : List PBar) (k : ℕ) : ℚ := mean (lastN (closes df) k)

/-- The MACD `dif` series: `_ema(close,12) - _ema(close,26)` elementwise. -/
def difL (df : List PBar) : List ℚ :=
  List.zipWith (· - ·) (ema (closes df) 12) (ema (closes df) 26)

/-- The MACD `dea` series: `_ema(dif, 9)`. -/
def deaL (df : List PBar) : List ℚ := ema (difL df) 9

/-- Mean gain over the last 14 percent-changes
(`np.mean(np.where(pct > 0, pct, 0))`). -/
def avgGain14 (df : List PBar) : ℚ :=
  mean ((lastN (pctsOf df) 14).map (fun x => if 0 < x then x else 0))

/-- Mean loss over the last 14 percent-changes
(`np.mean(np.where(pct < 0, -pct, 0))`). -/
def avgLoss14 (df : List PBar) : ℚ :=
  mean ((lastN (pctsOf df) 14).map (fun x => if x < 0 then -x else 0))

/-- RSI_14 value: `100 - 100/(1+rs)` when `avg_loss > 0`, else exactly 100. -/
def rsiVal (df : List PBar) : ℚ :=
  if 0 < avgLoss14 df then pyRound (100 - 100 / (1 + avgGain14 df / avgLoss14 df)) 1
  else 100

/-- Population variance of the last 20 closes (`np.std(close[-20:]) ** 2`);
used only to decide whether the Bollinger bands coincide. -/
def closeVar20 (df : List PBar) : ℚ :=
  mean ((lastN (closes df) 20).map (fun x => (x - maMean df 20) ^ 2))

/-- The 14-entry true-range list:
`np.maximum(high-low, np.maximum(|high-prevclose|, |low-prevclose|))` over the
last 14 bars, with `prevclose = close[-15:-1]`. -/
def trL (df : List PBar) : List ℚ :=
  List.zipWith (fun hl c => max (hl.1 - hl.2) (max |hl.1 - c| |hl.2 - c|))
    ((lastN (highsOf df) 14).zip (lastN (lowsOf df) 14)) ((lastN (closes df) 15).take 14)

/-- Value `np.mean(tr)`, the raw ATR_14 value. -/
def atrVal (df : List PBar) : ℚ := mean (trL df)

/-- Value `np.mean(vol[-k:])`. -/
def volMean (df : List PBar) (k : ℕ) : ℚ := mean (lastN (volsOf df) k)
/-- Gated 动量_5日 entry (`if len(close) >= 5`). -/
def f_momentum_5d (df : List PBar) : Option ℚ :=
  if 5 ≤ df.length then some (momentumVal df 5) else none

/-- Gated 动量_10日 entry. -/
def f_momentum_10d (df : List PBar) : Option ℚ :=
  if 10 ≤ df.length then some (momentumVal df 10) else none

/-- Gated 动量_20日 entry (`if len(close) >= 20`, not 21). -/
def f_momentum_20d (df : List PBar) : Option ℚ :=
  if 20 ≤ df.length then some (momentumVal df 20) else none

/-- Gated 动量_60日 entry. -/
def f_momentum_60d (df : List PBar) : Option ℚ :=
  if 60 ≤ df.length then some (momentumVal df 60) else none

/-- Gated MA5 entry; the stored value is rounded to 2 decimals. -/
def f_ma5 (df : List PBar) : Option ℚ :=
  if 5 ≤ df.length then some (pyRound (maMean df 5) 2) else none

/-- Gated 价格/MA5 entry; the ratio uses the unrounded mean. -/
def f_price_ma5 (df : List PBar) : Option ℚ :=
  if 5 ≤ df.length then some (pyRound (back (closes df) 1 / maMean df 5) 4) else none

/-- Gated MA10 entry. -/
def f_ma10 (df : List PBar) : Option ℚ :=
  if 10 ≤ df.length then some (pyRound (maMean df 10) 2) else none

/-- Gated MA20 entry. -/
def f_ma20 (df : List PBar) : Option ℚ :=
  if 20 ≤ df.length then some (pyRound (maMean df 20) 2) else none

/-- Gated 价格/MA20 entry. -/
def f_price_ma20 (df : List PBar) : Option ℚ :=
  if 20 ≤ df.length then some (pyRound (back (closes df) 1 / maMean df 20) 4) else none

/-- Gated MA60 entry. -/
def f_ma60 (df : List PBar) : Option ℚ :=
  if 60 ≤ df.length then some (pyRound (maMean df 60) 2) else none

/-- Gated 价格/MA60 entry. -/
def f_price_ma60 (df : List PBar) : Option ℚ :=
  if 60 ≤ df.length then some (pyRound (back (closes df) 1 / maMean df 60) 4) else none

/-- Gated 均线多头 entry: inserted iff the MA5 and MA20 keys are present, and
compares the rounded stored values, exactly as `factors["MA5"] > factors["MA20"]`. -/
def f_ma_bullish (df : List PBar) : Option ℚ :=
  if 5 ≤ df.length ∧ 20 ≤ df.length then
    some (if pyRound (maMean df 20) 2 < pyRound (maMean df 5) 2 then 1 else 0) else none

/-- Gated MACD_DIF entry (`if len(close) >= 35`). -/
def f_macd_dif (df : List PBar) : Option ℚ :=
  if 35 ≤ df.length then some (pyRound (back (difL df) 1) 3) else none

/-- Gated MACD_DEA entry. -/
def f_macd_dea (df : List PBar) : Option ℚ :=
  if 35 ≤ df.length then some (pyRound (back (deaL df) 1) 3) else none

/-- Gated MACD柱 entry: `(dif - dea) * 2` at the last bar. -/
def f_macd_bar (df : List PBar) : Option ℚ :=
  if 35 ≤ df.length then some (pyRound ((back (difL df) 1 - back (deaL df) 1) * 2) 3) else none

/-- Gated MACD金叉 entry: 1 iff `dif[-1] > dea[-1]` and `dif[-2] <= dea[-2]`. -/
def f_macd_cross (df : List PBar) : Option ℚ :=
  if 35 ≤ df.length then
    some (if back (deaL df) 1 < back (difL df) 1 ∧ back (difL df) 2 ≤ back (deaL df) 2
      then 1 else 0) else none

/-- Gated RSI_14 entry (`if len(pct_chg) >= 14`). -/
def f_rsi_14 (df : List PBar) : Option ℚ :=
  if 14 ≤ df.length then some (rsiVal df) else none

/-- Presence of 布林位置: the source inserts it iff `upper != lower`, i.e. iff the
standard deviation, hence the variance, of the last 20 closes is nonzero. -/
def f_boll_pos_present (df : List PBar) : Bool :=
  decide (20 ≤ df.length) && decide (closeVar20 df ≠ 0)

/-- Gated ATR_14 entry (`if len(close) >= 15`). -/
def f_atr_14 (df : List PBar) : Option ℚ :=
  if 15 ≤ df.length then some (pyRound (atrVal df) 2) else none

/-- Gated ATR/价格% entry. -/
def f_atr_price_pct (df : List PBar) : Option ℚ :=
  if 15 ≤ df.length then some (pyRound (atrVal df / back (closes df) 1 * 100) 2) else none

/-- Gated 量比_5/20 entry (`if len(vol) >= 20`); falls back to 1 on zero mean. -/
def f_vol_ratio_5_20 (df : List PBar) : Option ℚ :=
  if 20 ≤ df.length then
    some (if 0 < volMean df 20 then pyRound (volMean df 5 / volMean df 20) 2 else 1) else none

/-- Gated 今日量比 entry. -/
def f_vol_ratio_today (df : List PBar) : Option ℚ :=
  if 20 ≤ df.length then
    some (if 0 < volMean df 20 then pyRound (back (volsOf df) 1 / volMean df 20) 2 else 1) else none

/-- Gated 5日均量 entry. -/
def f_vol_mean_5d (df : List PBar) : Option ℚ :=
  if 5 ≤ df.length then some (pyRound (volMean df 5) 0) else none

/-- Gated 20日新高 entry: 1 iff `close[-1] >= np.max(high[-20:]) * 0.98`. -/
def f_new_high_20 (df : List PBar) : Option ℚ :=
  if 20 ≤ df.length then
    some (if maxList (lastN (highsOf df) 20) * (98/100) ≤ back (closes df) 1 then 1 else 0) else none

/-- Gated 60日新高 entry. -/
def f_new_high_60 (df : List PBar) : Option ℚ :=
  if 60 ≤ df.length then
    some (if maxList (lastN (highsOf df) 60) * (98/100) ≤ back (closes df) 1 then 1 else 0) else none

/-- Gated 20日新低 entry: 1 iff `close[-1] <= np.min(low[-20:]) * 1.02`. -/
def f_new_low_20 (df : List PBar) : Option ℚ :=
  if 20 ≤ df.length then
    some (if back (closes df) 1 ≤ minList (lastN (lowsOf df) 20) * (102/100) then 1 else 0) else none

/-- Gated 连涨天数 entry (`if len(pct_chg) >= 2`). -/
def f_consec_up_days (df : List PBar) : Option ℚ :=
  if 2 ≤ df.length then some (consecPos (pctsOf df) : ℚ) else none

/-- Model of `calc_technical_factors` from src/utils/data_fetcher.py.  The source builds
a dict by a sequence of independently-gated insertions; the structure literal
assembles the gated entries defined above, each of which reproduces its source
gate and value verbatim.  `df.length` plays the role of `len(df)` = `len(close)`
= `len(high)` = ...: every column of one DataFrame has the same length, so each
source gate `len(col) >= k` is `k ≤ df.length` (this also covers the source's
fallback of a zero pct_chg array of equal length). -/
def calc_technical_factors (df : List PBar) : TechFactors :=
  if df.length < 20 then emptyTechFactors else
  { momentum_5d := f_momentum_5d df
    momentum_10d := f_momentum_10d df
    momentum_20d := f_momentum_20d df
    momentum_60d := f_momentum_60d df
    ma5 := f_ma5 df
    price_ma5 := f_price_ma5 df
    ma10 := f_ma10 df
    ma20 := f_ma20 df
    price_ma20 := f_price_ma20 df
    ma60 := f_ma60 df
    price_ma60 := f_price_ma60 df
    ma_bullish := f_ma_bullish df
    macd_dif := f_macd_dif df
    macd_dea := f_macd_dea df
    macd_bar := f_macd_bar df
    macd_cross := f_macd_cross df
    rsi_14 := f_rsi_14 df
    boll_upper_present := decide (20 ≤ df.length)
    boll_lower_present := decide (20 ≤ df.length)
    boll_pos_present := f_boll_pos_present df
    atr_14 := f_atr_14 df
    atr_price_pct := f_atr_price_pct df
    vol_ratio_5_20 := f_vol_ratio_5_20 df
    vol_ratio_today := f_vol_ratio_today df
    vol_mean_5d := f_vol_mean_5d df
    new_high_20 := f_new_high_20 df
    new_high_60 := f_new_high_60 df
    new_low_20 := f_new_low_20 df
    consec_up_days := f_consec_up_days df }

/-- One bar of a MoneyflowSeries (columns of the per-symbol slice of the
market moneyflow DataFrame read by `calc_moneyflow_factors`). -/
structure MfBar where
  buy_elg_vol : ℚ
  sell_elg_vol : ℚ
  buy_lg_vol : ℚ
  sell_lg_vol : ℚ
  trade_count : ℚ
  deriving Repr, DecidableEq

/-- Main net inflow of one bar:
`(buy_elg_vol - sell_elg_vol) + (buy_lg_vol - sell_lg_vol)`. -/
def netMain (r : MfBar) : ℚ := r.buy_elg_vol - r.sell_elg_vol + r.buy_lg_vol - r.sell_lg_vol

/-- FactorSet produced by `calc_moneyflow_factors`.  Field names transliterate
the source's dict keys: main_net = 主力净流入, main_net_5d = 主力净流入_5日,
elg_share = 超大单占比, consec_inflow_days = 主力连续流入天数. -/
structure MoneyFactors where
  main_net : Option ℚ := none
  main_net_5d : Option ℚ := none
  elg_share : Option ℚ := none
  consec_inflow_days : Option ℚ := none
  deriving Repr, DecidableEq

/-- The empty moneyflow FactorSet. -/
def emptyMoneyFactors : MoneyFactors := {}

/-- Sum of `netMain` over the last 5 bars (`mf_df.tail(5)` loop). -/
def net5Sum (mf : List MfBar) : ℚ := ((mf.drop (mf.length - 5)).map netMain).sum

/-- Model of `calc_moneyflow_factors` from src/utils/data_fetcher.py.  On an empty
series the source returns `{}`.  Otherwise: 主力净流入 from the latest bar;
主力净流入_5日 only when at least 5 bars exist; 超大单占比 with the source's
truthiness fallback of `trade_count` to 1; 主力连续流入天数 as the trailing
count of bars with positive net inflow.  No branch of the source body can
raise with these total fields, so the enclosing try/except never fires. -/
def calc_moneyflow_factors (mf : List MfBar) : MoneyFactors :=
  match mf.getLast? with
  | none => emptyMoneyFactors
  | some latest =>
    { main_net := some (pyRound (netMain latest) 0)
      main_net_5d := if 5 ≤ mf.length then some (pyRound (net5Sum mf) 0) else none
      elg_share :=
        -- total_all = float(trade_count) if truthy else 1; key inserted iff total_all > 0
        let total_all := if latest.trade_count ≠ 0 then latest.trade_count else 1
        if 0 < total_all then
          some (pyRound ((latest.buy_elg_vol + latest.sell_elg_vol) / max total_all 1 * 100) 1)
        else none
      consec_inflow_days := some (consecPos (mf.map netMain) : ℚ) }

/-- The default factor weight map of `quant_stock_screener`, in the source's
insertion order (0.15, 0.15, 0.10, 0.10, 0.10, 0.20, 0.10, 0.10). -/
def default_factors_weight : List (String × ℚ) :=
  [("动量_20日", 15/100), ("量比_5/20", 15/100), ("MACD金叉", 10/100),
   ("均线多头", 10/100), ("RSI_14", 10/100), ("主力净流入_5日", 20/100),
   ("主力连续流入天数", 10/100), ("20日新高", 10/100)]

/-- Lookup of `all_factors = {**tech_factors, **money_factors}` by key name
(the two key sets are disjoint, so the merge is a plain union).  The three
Bollinger keys map to `none` here: their irrational values are outside this
ℚ model and no weight map in any settled claim names them. -/
def getFactor (t : TechFactors) (m : MoneyFactors) (name : String) : Option ℚ :=
  if name = "动量_5日" then t.momentum_5d
  else if name = "动量_10日" then t.momentum_10d
  else if name = "动量_20日" then t.momentum_20d
  else if name = "动量_60日" then t.momentum_60d
  else if name = "MA5" then t.ma5
  else if name = "价格/MA5" then t.price_ma5
  else if name = "MA10" then t.ma10
  else if name = "MA20" then t.ma20
  else if name = "价格/MA20" then t.price_ma20
  else if name = "MA60" then t.ma60
  else if name = "价格/MA60" then t.price_ma60
  else if name = "均线多头" then t.ma_bullish
  else if name = "MACD_DIF" then t.macd_dif
  else if name = "MACD_DEA" then t.macd_dea
  else if name = "MACD柱" then t.macd_bar
  else if name = "MACD金叉" then t.macd_cross
  else if name = "RSI_14" then t.rsi_14
  else if name = "ATR_14" then t.atr_14
  else if name = "ATR/价格%" then t.atr_price_pct
  else if name = "量比_5/20" then t.vol_ratio_5_20
  else if name = "今日量比" then t.vol_ratio_today
  else if name = "5日均量" then t.vol_mean_5d
  else if name = "20日新高" then t.new_high_20
  else if name = "60日新高" then t.new_high_60
  else if name = "20日新低" then t.new_low_20
  else if name = "连涨天数" then t.consec_up_days
  else if name = "主力净流入" then m.main_net
  else if name = "主力净流入_5日" then m.main_net_5d
  else if name = "超大单占比" then m.elg_share
  else if name = "主力连续流入天数" then m.consec_inflow_days
  else none

/-- The factor-specific normalization curve of the scoring loop in
`quant_stock_screener`, mapping the raw looked-up value (default 0 when the key is
missing) to the sub-score that gets multiplied by the weight. -/
def subscore (name : String) (val : ℚ) : ℚ :=
  if name = "动量_20日" then min (max ((val + 10) / 30 * 100) 0) 100
  else if name = "量比_5/20" then min (max (val * 50) 0) 100
  else if name = "MACD金叉" ∨ name = "均线多头" ∨ name = "20日新高" then val * 100
  else if name = "RSI_14" then
    if 50 ≤ val ∧ val ≤ 80 then 100
    else if 40 ≤ val ∧ val < 50 then 60
    else if 80 < val then 30
    else 20
  else if name = "主力净流入_5日" then min (max ((val + 5000) / 10000 * 100) 0) 100
  else if name = "主力连续流入天数" then min (val * 20) 100
  else min (max val 0) 100

/-- The composite score loop: `score += weight * curve(all_factors.get(name, 0))`
over the entries of the weight map, starting from 0. -/
def compositeScore (t : TechFactors) (m : MoneyFactors) (weights : List (String × ℚ)) : ℚ :=
  weights.foldl (fun acc nw => acc + nw.2 * subscore nw.1 ((getFactor t m nw.1).getD 0)) 0

/-- One row of the Tushare-shaped market snapshot as read by the universe
filter of `quant_stock_screener`: `amount` is in thousand yuan (千元), per the
source's own comment, so the turnover in currency units is `amount * 1000`. -/
structure TsSnapRow where
  ts_code : String
  name : String
  amount : ℚ
  pct_chg : ℚ
  deriving Repr, DecidableEq

/-- One row of the AKShare-shaped market snapshot: 名称/成交额/代码/涨跌幅,
with 成交额 in yuan. -/
structure AkSnapRow where
  name : String
  amount_yuan : ℚ
  code : String
  pct_chg : ℚ
  deriving Repr, DecidableEq

/-- Whether `pat` occurs at the start of `s` (character lists). -/
def prefixAt : List Char → List Char → Bool
  | [], _ => true
  | _ :: _, [] => false
  | p :: ps, c :: cs => p = c && prefixAt ps cs

/-- Whether `pat` occurs contiguously anywhere inside `s`. -/
def containsSub (pat : List Char) : List Char → Bool
  | [] => pat.isEmpty
  | c :: cs => prefixAt pat (c :: cs) || containsSub pat cs

/-- The ST/delisting marker test `str.contains("ST|退", na=False)`: the regex
alternation holds iff the name contains "ST" or contains "退". -/
def nameExcluded (s : String) : Bool :=
  containsSub "ST".toList s.toList || containsSub "退".toList s.toList

/-- Tushare-branch turnover rule: `snapshot["amount"] >= min_amount / 10`. -/
def tsAmountKeep (min_amount : ℚ) (r : TsSnapRow) : Bool :=
  decide (min_amount / 10 ≤ r.amount)

/-- Tushare-branch exchange-segment rule: drop codes starting with "8"
(`str.startswith("8")`, expressed on the character list). -/
def tsBoardKeep (r : TsSnapRow) : Bool := !(prefixAt "8".toList r.ts_code.toList)

/-- Tushare-branch limit-move rule:
`(pct_chg < 9.8) & (pct_chg > -9.8)`. -/
def tsPctKeep (r : TsSnapRow) : Bool :=
  decide (r.pct_chg < 98/10) && decide (-(98/10) < r.pct_chg)

/-- The Tushare-branch universe filter of `quant_stock_screener`: the four
boolean masks applied in sequence (name marker, turnover floor, board prefix
"8", limit move), which is the conjunction of the four row predicates. -/
def tushareUniverseFilter (min_amount : ℚ) (rows : List TsSnapRow) : List TsSnapRow :=
  ((((rows.filter (fun r => !(nameExcluded r.name))).filter
      (tsAmountKeep min_amount)).filter tsBoardKeep).filter tsPctKeep)

/-- AKShare-branch turnover rule: `snapshot["成交额"] >= min_amount * 1e4`. -/
def akAmountKeep (min_amount : ℚ) (r : AkSnapRow) : Bool :=
  decide (min_amount * 10000 ≤ r.amount_yuan)

/-- One output row of the screener's scoring loop.  The per-claim-relevant
columns are kept: the symbol, the merged factors and the rounded composite
score.  The display-only metadata columns copied from the snapshot match
(名称/行业/涨跌幅/成交额万) are not read by any claim and are omitted. -/
structure ScoredRow where
  ts_code : String
  tech : TechFactors
  money : MoneyFactors
  score : ℚ
  deriving Repr, DecidableEq

/-- One iteration of the screener's Step-4 loop for symbol `ts`:
technical factors only when the symbol is present in the daily-data map
(`if ts_code in daily_data`), moneyflow factors from the symbol's slice of the
market moneyflow table (the source skips the call when the slice is empty, and
`calc_moneyflow_factors` of an empty slice is `{}` anyway), then the weighted
composite score rounded to one decimal. -/
def scoreRow (dailyData : String → Option (List PBar)) (mfData : String → List MfBar)
    (weights : List (String × ℚ)) (ts : String) : ScoredRow :=
  let tech := match dailyData ts with
    | some df => calc_technical_factors df
    | none => emptyTechFactors
  let money := calc_moneyflow_factors (mfData ts)
  { ts_code := ts, tech := tech, money := money
    score := pyRound (compositeScore tech money weights) 1 }

/-- The screener's Step-4 loop: one scored row is appended for every symbol of
`candidates[:50]`, unconditionally — there is no skip branch for symbols whose
price-history fetch failed. -/
def scoredRows (candidates : List String) (dailyData : String → Option (List PBar))
    (mfData : String → List MfBar) (weights : List (String × ℚ)) : List ScoredRow :=
  (candidates.take 50).map (scoreRow dailyData mfData weights)

/-- Descending insertion step: `x` is placed before the first row whose score
is strictly below its own, so rows with equal scores keep their relative
order. -/
def insertDesc (x : ScoredRow) : List ScoredRow → List ScoredRow
  | [] => [x]
  | y :: ys => if y.score < x.score then x :: y :: ys else y :: insertDesc x ys

/-- Descending sort by score (insertion sort). -/
def sortByScoreDesc : List ScoredRow → List ScoredRow
  | [] => []
  | x :: xs => insertDesc x (sortByScoreDesc xs)

/-- Ranked output of `quant_stock_screener` (src/utils/data_fetcher.py),
given the already-filtered candidate list and the fetched per-symbol data maps
as inputs: the Step-4 scoring loop followed by
`result.sort_values("综合得分", ascending=False).head(top_n)`.  The descending
sort is modelled with the insertion sort above; the source's pandas call uses
the default sorting kind "quicksort", whose tie order pandas documents as
unspecified, so no claim settled through this definition depends on the tie
order. -/
def quant_stock_screener (top_n : ℕ) (candidates : List String)
    (dailyData : String → Option (List PBar)) (mfData : String → List MfBar)
    (weights : List (String × ℚ)) : List ScoredRow :=
  (sortByScoreDesc (scoredRows candidates dailyData mfData weights)).take top_n

/-- One bar of the pullback detector's K-line window (pages/5_Pullback.py),
already sorted by trade_date ascending with the index reset, as the source does
before any pattern state is evaluated. -/
structure KBar where
  high : ℚ
  low : ℚ
  close : ℚ
  vol : ℚ
  deriving Repr, DecidableEq

/-- The PatternSignal payload emitted on full acceptance.  The numeric fields
are kept: 首波涨幅 (surge, stored as a percent string in the source), 当前价格,
50%支撑价 (rounded to 2 decimals) and 回调缩量比 (shrink, stored as a percent
string).  The symbol/name/industry/market-cap columns attached from the
upstream fundamentals row are not read by any claim and are omitted. -/
structure PatternSignal where
  surge : ℚ
  current : ℚ
  target : ℚ
  shrink : ℚ
  deriving Repr, DecidableEq

/-- Window `search_window = df_k.iloc[:-5]`: the last 5 bars are reserved as the
verification window. -/
def searchWindow (df : List KBar) : List KBar := df.take (df.length - 5)

/-- Index `peak_idx = search_window['high'].idxmax()` (first index of the maximum,
positional after reset_index). -/
def peakIdx (df : List KBar) : ℕ := idxmax ((searchWindow df).map (·.high))

/-- Value `peak_price = search_window.loc[peak_idx, 'high']`. -/
def peakPrice (df : List KBar) : ℚ :=
  ((searchWindow df).map (·.high)).getD (peakIdx df) 0

/-- Window `base_window = search_window.iloc[:peak_idx]`. -/
def baseWindow (df : List KBar) : List KBar := (searchWindow df).take (peakIdx df)

/-- Index `base_idx = base_window['low'].idxmin()`. -/
def baseIdx (df : List KBar) : ℕ := idxmin ((baseWindow df).map (·.low))

/-- Value `base_price = base_window.loc[base_idx, 'low']`. -/
def basePrice (df : List KBar) : ℚ :=
  ((baseWindow df).map (·.low)).getD (baseIdx df) 0

/-- Value `surge = (peak_price - base_price) / base_price`. -/
def surgeVal (df : List KBar) : ℚ := (peakPrice df - basePrice df) / basePrice df

/-- Value `current_price = df_k.iloc[-1]['close']`. -/
def currentPrice (df : List KBar) : ℚ := (df.map (·.close)).getD (df.length - 1) 0

/-- Value `target_price = peak_price - (peak_price - base_price) * 0.5`. -/
def targetPrice (df : List KBar) : ℚ :=
  peakPrice df - (peakPrice df - basePrice df) * (1/2)

/-- Value `impulse_vol = df_k.iloc[base_idx:peak_idx+1]['vol'].mean()` — note the
slice is over the full frame, so it runs from the base to the peak. -/
def impulseVol (df : List KBar) : ℚ :=
  mean (((df.drop (baseIdx df)).take (peakIdx df + 1 - baseIdx df)).map (·.vol))

/-- Value `pullback_vol = df_k.iloc[peak_idx+1:]['vol'].mean()` — everything after
the peak, including the reserved last 5 bars. -/
def pullbackVol (df : List KBar) : ℚ :=
  mean ((df.drop (peakIdx df + 1)).map (·.vol))

/-- Value `shrink_ratio = pullback_vol / impulse_vol`. -/
def shrinkVal (df : List KBar) : ℚ := pullbackVol df / impulseVol df

/-- The per-symbol body of the pattern-detection loop of pages/5_Pullback.py,
with the gates in source order: the too-short-history skip (`len(df_k) < 40`),
the stale-peak skip (`len(df_k) - peak_idx > 30`), the short-base skip
(`len(base_window) < 5`), the surge gate (slider percent divided by 100), the
50%-retracement gate with `tolerance = target * 0.12`, and the volume-shrink
gate; on full acceptance the signal payload is emitted with the 支撑价 rounded
to 2 decimals.  `surge_threshold` and `vol_shrink` are the slider percent
values (defaults 40 and 45). -/
def detect_pullback (surge_threshold vol_shrink : ℚ) (df : List KBar) : Option PatternSignal :=
  if df.length < 40 then none
  else if 30 < df.length - peakIdx df then none
  else if (baseWindow df).length < 5 then none
  else if surgeVal df < surge_threshold / 100 then none
  else if ¬(targetPrice df - targetPrice df * (12/100) ≤ currentPrice df ∧
            currentPrice df ≤ targetPrice df + targetPrice df * (12/100)) then none
  else if vol_shrink / 100 < shrinkVal df then none
  else some { surge := surgeVal df, current := currentPrice df
              target := pyRound (targetPrice df) 2, shrink := shrinkVal df }

/-- Presence of a gated dict entry is exactly its gate condition. -/
theorem isSome_gate {c : Prop} [Decidable c] (a : ℚ) :
    (if c then some a else (none : Option ℚ)).isSome ↔ c := by
  split <;> simp_all

/-- A 19-bar series whose history would suffice for the 5- and 10-day factors. -/
def demo19 : List PBar :=
  List.replicate 19 { close := 10, high := 10, low := 10, vol := 10, pct_chg := 1 }

/-- C9 (confirmed): for every input price series with fewer than 20 bars,
`calc_technical_factors` returns the completely empty FactorSet — even factors
whose own window fits the available history are absent, because the function
returns `{}` before computing anything. -/
theorem short_series_empty_factors (df : List PBar) (h : df.length < 20) :
    calc_technical_factors df = emptyTechFactors := by
  unfold calc_technical_factors
  simp [h]

/-- Witness for C9 at a concrete 19-bar series: long enough for 动量_5日, MA5
and RSI_14 individually, yet the FactorSet is empty. -/
theorem short_series_empty_factors_witness :
    demo19.length < 20 ∧ calc_technical_factors demo19 = emptyTechFactors :=
  ⟨by decide, short_series_empty_factors demo19 (by decide)⟩

/-- C10 (confirmed): for every price series with fewer than 40 bars the
pattern detector emits no signal and evaluates no pattern state — the
`len(df_k) < 40` guard skips the symbol first, for any threshold settings. -/
theorem pullback_short_series_skipped (s v : ℚ) (df : List KBar) (h : df.length < 40) :
    detect_pullback s v df = none := by
  unfold detect_pullback
  simp [h]

/-- Witness for C10 at a concrete 39-bar series with default thresholds. -/
theorem pullback_short_series_skipped_witness :
    (List.replicate 39 ({ high := 145, low := 100, close := 122, vol := 10 } : KBar)).length < 40 ∧
    detect_pullback 40 45 (List.replicate 39 { high := 145, low := 100, close := 122, vol := 10 }) = none :=
  ⟨by decide, pullback_short_series_skipped 40 45 _ (by decide)⟩

/-- A concrete 20-bar series: its 20-day momentum is (12/10 - 1)·100 = 20. -/
def demo20 : List PBar :=
  List.replicate 19 { close := 10, high := 10, low := 10, vol := 10, pct_chg := 1 } ++
  [{ close := 12, high := 10, low := 10, vol := 10, pct_chg := 1 }]

/-- C4 counterexample: on a series of exactly 20 bars the 20-day momentum key
is PRESENT (the source gate is `len(close) >= 20`, not `>= 21`), contradicting
the claim that a series shorter than W+1 bars omits the window-W indicator. -/
theorem momentum20_present_at_20_bars_cex :
    demo20.length = 20 ∧ (calc_technical_factors demo20).momentum_20d = some 20 := by
  constructor
  · decide
  · norm_num [calc_technical_factors, demo20, f_momentum_20d, momentumVal, closes,
      back, pyRound, roundHalfEven, List.replicate, List.getD]

/-- C4 as amended: the factor keys named by the claim are present exactly when
the series reaches the source's own gates — `len >= k` (not `k+1`) for the
k-day momentum and MA entries on top of the global `len >= 20` guard, `len >=
35` for the MACD family, and the global guard alone for RSI_14, ATR_14 and the
volume ratios (whose own gates of 14, 15 and 20 bars are at or below it); no
exception is ever raised, the function being total. -/
theorem factor_presence_gates (df : List PBar) :
    ((calc_technical_factors df).momentum_5d.isSome ↔ 20 ≤ df.length) ∧
    ((calc_technical_factors df).momentum_10d.isSome ↔ 20 ≤ df.length) ∧
    ((calc_technical_factors df).momentum_20d.isSome ↔ 20 ≤ df.length) ∧
    ((calc_technical_factors df).momentum_60d.isSome ↔ 60 ≤ df.length) ∧
    ((calc_technical_factors df).ma5.isSome ↔ 20 ≤ df.length) ∧
    ((calc_technical_factors df).ma10.isSome ↔ 20 ≤ df.length) ∧
    ((calc_technical_factors df).ma20.isSome ↔ 20 ≤ df.length) ∧
    ((calc_technical_factors df).ma60.isSome ↔ 60 ≤ df.length) ∧
    ((calc_technical_factors df).macd_dif.isSome ↔ 35 ≤ df.length) ∧
    ((calc_technical_factors df).macd_dea.isSome ↔ 35 ≤ df.length) ∧
    ((calc_technical_factors df).macd_bar.isSome ↔ 35 ≤ df.length) ∧
    ((calc_technical_factors df).macd_cross.isSome ↔ 35 ≤ df.length) ∧
    ((calc_technical_factors df).rsi_14.isSome ↔ 20 ≤ df.length) ∧
    ((calc_technical_factors df).atr_14.isSome ↔ 20 ≤ df.length) ∧
    ((calc_technical_factors df).vol_ratio_5_20.isSome ↔ 20 ≤ df.length) ∧
    ((calc_technical_factors df).vol_ratio_today.isSome ↔ 20 ≤ df.length) := by
  by_cases h : df.length < 20
  · rw [calc_technical_factors, if_pos h]
    simp only [emptyTechFactors, Option.isSome_none, Bool.false_eq_true, false_iff,
      not_le]
    omega
  · rw [calc_technical_factors, if_neg h]
    simp only [f_momentum_5d, f_momentum_10d, f_momentum_20d, f_momentum_60d,
      f_ma5, f_ma10, f_ma20, f_ma60, f_macd_dif, f_macd_dea, f_macd_bar,
      f_macd_cross, f_rsi_14, f_atr_14, f_vol_ratio_5_20, f_vol_ratio_today,
      isSome_gate]
    simp only [true_and, and_true]
    omega

/-- A single-bar moneyflow series (net inflow 12 on its only bar). -/
def demoMf1 : List MfBar :=
  [{ buy_elg_vol := 10, sell_elg_vol := 2, buy_lg_vol := 5, sell_lg_vol := 1, trade_count := 100 }]

/-- C6 counterexample: on a non-empty moneyflow series with fewer than 5 bars
the 主力净流入_5日 key is ABSENT — the source only inserts it under
`if len(mf_df) >= 5`, it does not sum over the bars that exist. -/
theorem main_net_5d_absent_short_series_cex :
    demoMf1 ≠ [] ∧ demoMf1.length < 5 ∧ (calc_moneyflow_factors demoMf1).main_net_5d = none := by
  refine ⟨by decide, by decide, rfl⟩

/-- C6 as amended: 主力净流入_5日 is present exactly when the series has at
least 5 bars, and then equals the rounded sum of the main net inflow over the
last 5 bars; for a shorter (even non-empty) series the key is absent, while
主力净流入 and 主力连续流入天数 are still produced without error. -/
theorem main_net_5d_presence (mf : List MfBar) :
    (calc_moneyflow_factors mf).main_net_5d =
      if 5 ≤ mf.length then some (pyRound (net5Sum mf) 0) else none := by
  unfold calc_moneyflow_factors
  cases h : mf.getLast? with
  | none =>
    have hmf : mf = [] := List.getLast?_eq_none_iff.mp h
    subst hmf
    simp [emptyMoneyFactors]
  | some latest => rfl

/-- Lookup reductions of `getFactor` at the eight weighted key names, and the
normalization-curve reductions of `subscore` at the same names; each is a
definitional consequence of the lookup chain. -/
theorem getFactor_mom20 (t : TechFactors) (m : MoneyFactors) :
    getFactor t m "动量_20日" = t.momentum_20d := rfl

theorem getFactor_volr (t : TechFactors) (m : MoneyFactors) :
    getFactor t m "量比_5/20" = t.vol_ratio_5_20 := rfl

theorem getFactor_macdx (t : TechFactors) (m : MoneyFactors) :
    getFactor t m "MACD金叉" = t.macd_cross := rfl

theorem getFactor_mabull (t : TechFactors) (m : MoneyFactors) :
    getFactor t m "均线多头" = t.ma_bullish := rfl

theorem getFactor_rsi (t : TechFactors) (m : MoneyFactors) :
    getFactor t m "RSI_14" = t.rsi_14 := rfl

theorem getFactor_net5 (t : TechFactors) (m : MoneyFactors) :
    getFactor t m "主力净流入_5日" = m.main_net_5d := rfl

theorem getFactor_consec (t : TechFactors) (m : MoneyFactors) :
    getFactor t m "主力连续流入天数" = m.consec_inflow_days := rfl

theorem getFactor_nh20 (t : TechFactors) (m : MoneyFactors) :
    getFactor t m "20日新高" = t.new_high_20 := rfl

theorem subscore_mom20 (v : ℚ) :
    subscore "动量_20日" v = min (max ((v + 10) / 30 * 100) 0) 100 := rfl

theorem subscore_volr (v : ℚ) :
    subscore "量比_5/20" v = min (max (v * 50) 0) 100 := rfl

theorem subscore_macdx (v : ℚ) : subscore "MACD金叉" v = v * 100 := rfl

theorem subscore_mabull (v : ℚ) : subscore "均线多头" v = v * 100 := rfl

theorem subscore_rsi (v : ℚ) :
    subscore "RSI_14" v =
      if 50 ≤ v ∧ v ≤ 80 then 100
      else if 40 ≤ v ∧ v < 50 then 60
      else if 80 < v then 30
      else 20 := rfl

theorem subscore_net5 (v : ℚ) :
    subscore "主力净流入_5日" v = min (max ((v + 5000) / 10000 * 100) 0) 100 := rfl

theorem subscore_consec (v : ℚ) :
    subscore "主力连续流入天数" v = min (v * 20) 100 := rfl

theorem subscore_nh20 (v : ℚ) : subscore "20日新高" v = v * 100 := rfl

/-- C1 counterexample: a candidate with a completely empty FactorSet receives
composite score 17 under the default weights, not 0 — the missing 动量_20日,
RSI_14 and 主力净流入_5日 are read as raw 0 and still pass through their
normalization curves (0.15·100/3 + 0.10·20 + 0.20·50 = 17). -/
theorem score_missing_factors_nonzero_cex :
    compositeScore emptyTechFactors emptyMoneyFactors default_factors_weight = 17 ∧
    (17 : ℚ) ≠ 0 := by
  constructor
  · simp only [compositeScore, default_factors_weight, List.foldl,
      getFactor_mom20, getFactor_volr, getFactor_macdx, getFactor_mabull,
      getFactor_rsi, getFactor_net5, getFactor_consec, getFactor_nh20,
      subscore_mom20, subscore_volr, subscore_macdx, subscore_mabull,
      subscore_rsi, subscore_net5, subscore_consec, subscore_nh20,
      emptyTechFactors, emptyMoneyFactors, Option.getD_none]
    norm_num
  · norm_num

/-- C1 as amended: a factor name of the default weight map that is absent from
the candidate's factors contributes `weight × curve(0)`, not 0: the three
names whose curve is nonzero at 0 (动量_20日, RSI_14, 主力净流入_5日) together
contribute exactly 17 points under the default weights, and the composite
score is that constant plus the weighted sub-scores of the remaining five
weighted names. -/
theorem score_missing_factor_contribution (t : TechFactors) (m : MoneyFactors)
    (h20 : t.momentum_20d = none) (hr : t.rsi_14 = none) (h5 : m.main_net_5d = none) :
    compositeScore t m default_factors_weight =
      17 + (15/100) * subscore "量比_5/20" (t.vol_ratio_5_20.getD 0)
         + (10/100) * subscore "MACD金叉" (t.macd_cross.getD 0)
         + (10/100) * subscore "均线多头" (t.ma_bullish.getD 0)
         + (10/100) * subscore "主力连续流入天数" (m.consec_inflow_days.getD 0)
         + (10/100) * subscore "20日新高" (t.new_high_20.getD 0) := by
  simp only [compositeScore, default_factors_weight, List.foldl,
    getFactor_mom20, getFactor_volr, getFactor_macdx, getFactor_mabull,
    getFactor_rsi, getFactor_net5, getFactor_consec, getFactor_nh20,
    h20, hr, h5, Option.getD_none, subscore_mom20, subscore_rsi, subscore_net5]
  norm_num
  ring

/-- Witness for the amended C1 at the empty factor sets: every weighted name is
missing, the five residual sub-scores vanish at 0, and the score is exactly 17. -/
theorem score_missing_factor_contribution_witness :
    compositeScore emptyTechFactors emptyMoneyFactors default_factors_weight =
      17 + (15/100) * subscore "量比_5/20" (emptyTechFactors.vol_ratio_5_20.getD 0)
         + (10/100) * subscore "MACD金叉" (emptyTechFactors.macd_cross.getD 0)
         + (10/100) * subscore "均线多头" (emptyTechFactors.ma_bullish.getD 0)
         + (10/100) * subscore "主力连续流入天数" (emptyMoneyFactors.consec_inflow_days.getD 0)
         + (10/100) * subscore "20日新高" (emptyTechFactors.new_high_20.getD 0) :=
  score_missing_factor_contribution emptyTechFactors emptyMoneyFactors rfl rfl rfl

/-- Helper: a row passing all four masks survives the singleton filter chain. -/
theorem filterKeepSingleton (minA : ℚ) (r : TsSnapRow)
    (h1 : nameExcluded r.name = false) (h2 : tsAmountKeep minA r = true)
    (h3 : tsBoardKeep r = true) (h4 : tsPctKeep r = true) :
    tushareUniverseFilter minA [r] = [r] := by
  unfold tushareUniverseFilter
  simp [List.filter_cons, h1, h2, h3, h4]

/-- A Tushare-branch snapshot row with amount 1000 thousand-yuan, i.e. a
turnover of 1,000,000 currency units — fifty times below the documented
50,000,000 floor. -/
def bugRow : TsSnapRow := { ts_code := "600000.SH", name := "浦发银行", amount := 1000, pct_chg := 1 }

/-- C2 (code bug, Tushare branch): with the default `min_amount = 5000` (万元)
the Tushare turnover mask keeps any row with `amount >= 5000/10 = 500`
thousand-yuan, an effective floor of 500,000 currency units instead of
50,000,000: the row above (turnover 1,000,000) passes the whole filter chain.
The AKShare branch of the same function implements the intended floor exactly
(`成交额 >= 5000 * 1e4 = 50,000,000` yuan) and rejects the same turnover,
confirming the intent the Tushare branch misses by a factor of 100 (`/ 10`
where the 万→千元 conversion requires `* 10`). -/
theorem turnover_floor_bug_eval :
    tsAmountKeep 5000 bugRow = true ∧
    bugRow.amount * 1000 < 50000000 ∧
    tushareUniverseFilter 5000 [bugRow] = [bugRow] ∧
    akAmountKeep 5000 { name := "浦发银行", amount_yuan := 1000000, code := "600000", pct_chg := 1 } = false := by
  refine ⟨?_, by norm_num [bugRow], ?_, ?_⟩
  · norm_num [tsAmountKeep, bugRow]
  · exact filterKeepSingleton 5000 bugRow (by decide)
      (by norm_num [tsAmountKeep, bugRow]) (by decide)
      (by norm_num [tsPctKeep, bugRow])
  · norm_num [akAmountKeep]

/-- C7 (confirmed): a row that passes the name, turnover and board rules
belongs to the filtered universe exactly when `|pct_chg| < 9.8` — the mask
`(pct_chg < 9.8) & (pct_chg > -9.8)` excludes the closed boundary (9.8 itself
is dropped, 9.79 is kept). -/
theorem limit_move_rule (minA : ℚ) (r : TsSnapRow)
    (hname : nameExcluded r.name = false)
    (hamount : tsAmountKeep minA r = true)
    (hboard : tsBoardKeep r = true) :
    r ∈ tushareUniverseFilter minA [r] ↔ |r.pct_chg| < 98/10 := by
  unfold tushareUniverseFilter
  simp [List.filter_cons, hname, hamount, hboard, tsPctKeep, abs_lt, and_comm]

/-- A retained boundary row: pct_chg = 9.79. -/
def row979 : TsSnapRow := { ts_code := "600000.SH", name := "浦发银行", amount := 100000, pct_chg := 979/100 }

/-- Witness for C7: the 9.79-row passes the full filter chain. -/
theorem limit_move_rule_witness : row979 ∈ tushareUniverseFilter 5000 [row979] :=
  (limit_move_rule 5000 row979 (by decide) (by norm_num [tsAmountKeep, row979])
    (by decide)).mpr (by rw [abs_lt]; constructor <;> norm_num [row979])

/-- C3 counterexample: a candidate whose price-history fetch failed (it is
absent from the daily-data map) still appears in the ranked screen output —
the Step-4 loop appends a row for every candidate unconditionally. -/
theorem failed_fetch_symbol_in_output_cex :
    (quant_stock_screener 30 ["600000.SH"] (fun _ => none) (fun _ => [])
        default_factors_weight).map (·.ts_code) = ["600000.SH"] := rfl

/-- C3 as amended: the scoring loop emits exactly one row per symbol of
`candidates[:50]`, whether or not that symbol has an entry in the daily-data
map — a failed per-symbol fetch only empties the technical FactorSet, it does
not remove the symbol from the scored output (only the `top_n` truncation
can). -/
theorem scored_rows_cover_all_candidates (candidates : List String)
    (dailyData : String → Option (List PBar)) (mfData : String → List MfBar)
    (weights : List (String × ℚ)) :
    (scoredRows candidates dailyData mfData weights).map (·.ts_code) = candidates.take 50 := by
  unfold scoredRows
  rw [List.map_map]
  have h : ((fun r : ScoredRow => r.ts_code) ∘ scoreRow dailyData mfData weights) =
      fun ts => ts := funext fun ts => rfl
  rw [h]
  exact List.map_id' _

/-- C8 (confirmed): for every K-line series in which the detector's peak is
bar 40 at high 145 and lies in the search prefix (so the series has at least 46
bars) at most 30 bars before the end, the base is bar 10 at low 100, the final
close is 122.5, and the pullback-phase mean volume is 2/5 of the (positive)
impulse-phase mean volume, the detector with the default sliders (40, 45)
emits the signal with surge 45%, retracement target 122.5 and shrink ratio
0.40. -/
theorem pullback_scenario_signal (df : List KBar)
    (hn : 46 ≤ df.length) (hstale : df.length - 40 ≤ 30)
    (hpi : peakIdx df = 40) (hpv : peakPrice df = 145)
    (hbi : baseIdx df = 10) (hbv : basePrice df = 100)
    (hcur : currentPrice df = 245/2)
    (himp : 0 < impulseVol df)
    (hpull : pullbackVol df = (2/5) * impulseVol df) :
    detect_pullback 40 45 df =
      some { surge := 9/20, current := 245/2, target := 245/2, shrink := 2/5 } := by
  have hsurge : surgeVal df = 9/20 := by
    unfold surgeVal; rw [hpv, hbv]; norm_num
  have htp : targetPrice df = 245/2 := by
    unfold targetPrice; rw [hpv, hbv]; norm_num
  have hshr : shrinkVal df = 2/5 := by
    unfold shrinkVal
    rw [hpull, mul_div_assoc, div_self (ne_of_gt himp), mul_one]
  have hbw : (baseWindow df).length = 40 := by
    unfold baseWindow searchWindow
    rw [hpi]
    simp only [List.length_take]
    omega
  unfold detect_pullback
  rw [if_neg (show ¬ df.length < 40 by omega), hpi,
      if_neg (show ¬ 30 < df.length - 40 by omega), hbw,
      if_neg (show ¬ (40:ℕ) < 5 by norm_num), hsurge,
      if_neg (show ¬ (9/20 : ℚ) < 40/100 by norm_num), htp, hcur, hshr,
      if_neg (show ¬ (45/100 : ℚ) < 2/5 by norm_num)]
  rw [if_neg (show ¬¬((245/2 : ℚ) - 245/2 * (12/100) ≤ 245/2 ∧
      (245/2 : ℚ) ≤ 245/2 + 245/2 * (12/100)) by norm_num)]
  norm_num [pyRound, roundHalfEven]

/-- The scenario series of C8: 46 bars; lows 110 except 100 at bar 10; highs
120 except 145 at bar 40; closes 115 except 122.5 on the final bar; volume 100
through the impulse (bars 0–40) and 40 through the pullback (bars 41–45). -/
def demo46 : List KBar :=
  List.replicate 10 { high := 120, low := 110, close := 115, vol := 100 } ++
  [{ high := 120, low := 100, close := 115, vol := 100 }] ++
  List.replicate 29 { high := 120, low := 110, close := 115, vol := 100 } ++
  [{ high := 145, low := 110, close := 115, vol := 100 }] ++
  List.replicate 4 { high := 120, low := 110, close := 115, vol := 40 } ++
  [{ high := 120, low := 110, close := 245/2, vol := 40 }]

/-- Witness for C8: the scenario series above produces the signal with target
122.5 and shrink ratio 0.40. -/
theorem pullback_scenario_signal_witness :
    detect_pullback 40 45 demo46 =
      some { surge := 9/20, current := 245/2, target := 245/2, shrink := 2/5 } :=
  pullback_scenario_signal demo46 (by decide) (by decide)
    (by decide) (by decide) (by decide) (by decide)
    (by norm_num [currentPrice, demo46, List.replicate, List.getD])
    (by norm_num [impulseVol, peakIdx, baseIdx, searchWindow, baseWindow,
        idxmax, idxmaxAux, idxmin, idxminAux, mean, demo46, List.replicate])
    (by norm_num [impulseVol, pullbackVol, peakIdx, baseIdx, searchWindow, baseWindow,
        idxmax, idxmaxAux, idxmin, idxminAux, mean, demo46, List.replicate])

end Xunxing
